import Mathlib

/-!
Verification of the sntp-rs SNTPv4 client (src/client.rs) against its
natural-language specification.

The client state machine is translated from src/client.rs.  The wire codec
(the crate's wire module with Packet, Repr, LeapIndicator, ProtocolMode,
Stratum, Timestamp) is not among the staged source files, so it is modelled
from the spec: the 48-byte big-endian layout of spec section 6, the field
enumerations of section 3 and the Parse/Emit contracts of section 4.1.

Machine integers are modelled as Nat with explicit reduction modulo 2^8 and
2^32 where the code wraps; the two signed 8-bit exponent fields are Int with
two's-complement byte encoding.  Instants and durations (smoltcp types, also
external to the staged sources) are modelled from the spec as signed
integers counting milliseconds, with Duration.from_secs multiplying by 1000.
-/

namespace Sntp

/-- Default to one hour interval between requests (src/client.rs line 10). -/
def REQUEST_INTERVAL : Nat := 60 * 60

/-- Number of seconds between 1970 and Feb 7, 2036 06:28:16 UTC, epoch 1
(src/client.rs line 13). -/
def DIFF_SEC_1970_2036 : Nat := 2085978496

/-- IANA port for SNTP servers (src/client.rs line 16). -/
def SNTP_PORT : Nat := 123

/-- Modelled from the spec: smoltcp Duration, in milliseconds, signed as the
spec treats next_poll results ("may be negative/zero if overdue"). -/
def durFromSecs (s : Nat) : Int := 1000 * (s : Int)

/-- Modelled from the spec: the leap indicator enumeration of section 3,
a 2-bit field. -/
inductive LeapIndicator where
  | NoWarning
  | InsertSecond
  | DeleteSecond
  | Unknown
deriving DecidableEq

/-- Modelled from the spec: the 3-bit protocol mode enumeration of
section 3. -/
inductive ProtocolMode where
  | Reserved
  | SymmetricActive
  | SymmetricPassive
  | Client
  | Server
  | Broadcast
  | ControlMessage
  | Private
deriving DecidableEq

/-- Modelled from the spec: the stratum enumeration of section 3, with
KissOfDeath at byte 0, primary at 1, secondary over the range 2 to 15,
unsynchronized at 16 and all remaining byte values reserved (unknown
values map to defined reserved variants rather than failing, section
4.1). -/
inductive Stratum where
  | KissOfDeath
  | PrimaryReference
  | SecondaryReference (n : Nat)
  | Unsynchronized
  | Reserved (n : Nat)
deriving DecidableEq

/-- Modelled from the spec: a 64-bit NTP time value, 32-bit seconds plus
32-bit binary fraction (section 3). -/
structure Timestamp where
  sec : Nat
  frac : Nat
deriving DecidableEq

/-- Modelled from the spec: the 4-byte opaque reference identifier. -/
structure RefId where
  b0 : Nat
  b1 : Nat
  b2 : Nat
  b3 : Nat
deriving DecidableEq

/-- Modelled from the spec: the decoded form of one SNTP message
(section 3). -/
structure Repr where
  leap_indicator : LeapIndicator
  version : Nat
  protocol_mode : ProtocolMode
  stratum : Stratum
  poll_interval : Int
  precision : Int
  root_delay : Nat
  root_dispersion : Nat
  ref_identifier : RefId
  ref_timestamp : Timestamp
  orig_timestamp : Timestamp
  recv_timestamp : Timestamp
  xmit_timestamp : Timestamp
deriving DecidableEq

/-- Modelled from the spec: the structural error of the wire codec
(section 4.1, insufficient data). -/
inductive WireError where
  | Truncated
deriving DecidableEq

instance {ε α : Type} [DecidableEq ε] [DecidableEq α] :
    DecidableEq (Except ε α) := fun a b =>
  match a, b with
  | .error x, .error y =>
    if h : x = y then .isTrue (congrArg Except.error h)
    else .isFalse (fun hh => h (Except.error.inj hh))
  | .error _, .ok _ => .isFalse (fun hh => Except.noConfusion hh)
  | .ok _, .error _ => .isFalse (fun hh => Except.noConfusion hh)
  | .ok x, .ok y =>
    if h : x = y then .isTrue (congrArg Except.ok h)
    else .isFalse (fun hh => h (Except.ok.inj hh))

def LeapIndicator.toWire : LeapIndicator → Nat
  | .NoWarning => 0
  | .InsertSecond => 1
  | .DeleteSecond => 2
  | .Unknown => 3

def LeapIndicator.ofWire (n : Nat) : LeapIndicator :=
  if n = 0 then .NoWarning
  else if n = 1 then .InsertSecond
  else if n = 2 then .DeleteSecond
  else .Unknown

def ProtocolMode.toWire : ProtocolMode → Nat
  | .Reserved => 0
  | .SymmetricActive => 1
  | .SymmetricPassive => 2
  | .Client => 3
  | .Server => 4
  | .Broadcast => 5
  | .ControlMessage => 6
  | .Private => 7

def ProtocolMode.ofWire (n : Nat) : ProtocolMode :=
  if n = 0 then .Reserved
  else if n = 1 then .SymmetricActive
  else if n = 2 then .SymmetricPassive
  else if n = 3 then .Client
  else if n = 4 then .Server
  else if n = 5 then .Broadcast
  else if n = 6 then .ControlMessage
  else .Private

def Stratum.toWire : Stratum → Nat
  | .KissOfDeath => 0
  | .PrimaryReference => 1
  | .SecondaryReference n => n
  | .Unsynchronized => 16
  | .Reserved n => n

def Stratum.ofWire (n : Nat) : Stratum :=
  if n = 0 then .KissOfDeath
  else if n = 1 then .PrimaryReference
  else if n ≤ 15 then .SecondaryReference n
  else if n = 16 then .Unsynchronized
  else .Reserved n

/-- Byte i of a packet buffer; the wire holds octets, so values reduce
modulo 256. -/
def byteAt (d : List Nat) (i : Nat) : Nat := d.getD i 0 % 256

/-- Big-endian 32-bit read at offset i (section 6: all multi-byte fields
big-endian). -/
def be32 (d : List Nat) (i : Nat) : Nat :=
  byteAt d i * 16777216 + byteAt d (i + 1) * 65536 +
    byteAt d (i + 2) * 256 + byteAt d (i + 3)

/-- An 8-byte timestamp at offset i: 4-byte seconds then 4-byte fraction,
big-endian (section 6). -/
def tsAt (d : List Nat) (i : Nat) : Timestamp :=
  { sec := be32 d i, frac := be32 d (i + 4) }

/-- Decode of a two's-complement octet into a signed 8-bit exponent. -/
def i8OfByte (b : Nat) : Int :=
  if b % 256 < 128 then ((b % 256 : Nat) : Int) else ((b % 256 : Nat) : Int) - 256

/-- Two's-complement octet of a signed 8-bit exponent. -/
def byteOfI8 (i : Int) : Nat := (i % 256).toNat

/-- Modelled from the spec: Parse of the wire codec (section 4.1).  Fails
with a structural error on fewer than 48 bytes; otherwise decodes every
field of the fixed big-endian layout of section 6, mapping unknown
enumerant values of advisory fields to defined variants.  Packet
new_checked and the Repr parse of the crate's wire module are collapsed
into this one total function. -/
def Repr.parse (d : List Nat) : Except WireError Repr :=
  if d.length < 48 then .error .Truncated
  else
    .ok
      { leap_indicator := LeapIndicator.ofWire (byteAt d 0 / 64 % 4)
        version := byteAt d 0 / 8 % 8
        protocol_mode := ProtocolMode.ofWire (byteAt d 0 % 8)
        stratum := Stratum.ofWire (byteAt d 1)
        poll_interval := i8OfByte (byteAt d 2)
        precision := i8OfByte (byteAt d 3)
        root_delay := be32 d 4
        root_dispersion := be32 d 8
        ref_identifier :=
          { b0 := byteAt d 12, b1 := byteAt d 13
            b2 := byteAt d 14, b3 := byteAt d 15 }
        ref_timestamp := tsAt d 16
        orig_timestamp := tsAt d 24
        recv_timestamp := tsAt d 32
        xmit_timestamp := tsAt d 40 }

/-- Big-endian 4-byte serialization of a 32-bit value. -/
def u32be (x : Nat) : List Nat :=
  [x / 16777216 % 256, x / 65536 % 256, x / 256 % 256, x % 256]

/-- Serialization of one 64-bit timestamp. -/
def Timestamp.bytes (t : Timestamp) : List Nat := u32be t.sec ++ u32be t.frac

/-- Modelled from the spec: Emit of the wire codec (section 4.1), the
48-byte big-endian serialization of a Repr per the layout of section 6.
Byte 0 packs leap indicator (2 bits), version (3 bits) and mode
(3 bits). -/
def Repr.emit (r : Repr) : List Nat :=
  [r.leap_indicator.toWire * 64 + r.version % 8 * 8 + r.protocol_mode.toWire,
    r.stratum.toWire % 256, byteOfI8 r.poll_interval, byteOfI8 r.precision] ++
    u32be r.root_delay ++ u32be r.root_dispersion ++
    [r.ref_identifier.b0 % 256, r.ref_identifier.b1 % 256,
      r.ref_identifier.b2 % 256, r.ref_identifier.b3 % 256] ++
    r.ref_timestamp.bytes ++ r.orig_timestamp.bytes ++
    r.recv_timestamp.bytes ++ r.xmit_timestamp.bytes

/-- A stratum value within the enumerants' valid ranges: secondary
references cover bytes 2 to 15, reserved covers 17 to 255. -/
def Stratum.Valid : Stratum → Prop
  | .KissOfDeath => True
  | .PrimaryReference => True
  | .SecondaryReference n => 2 ≤ n ∧ n ≤ 15
  | .Unsynchronized => True
  | .Reserved n => 17 ≤ n ∧ n ≤ 255

instance : DecidablePred Stratum.Valid := by
  intro s
  cases s <;> simp [Stratum.Valid] <;> infer_instance

/-- A timestamp whose fields fit in 32 bits. -/
def Timestamp.Valid (t : Timestamp) : Prop := t.sec < 4294967296 ∧ t.frac < 4294967296

instance (t : Timestamp) : Decidable t.Valid := by unfold Timestamp.Valid; infer_instance

/-- A reference identifier made of octets. -/
def RefId.Valid (x : RefId) : Prop :=
  x.b0 < 256 ∧ x.b1 < 256 ∧ x.b2 < 256 ∧ x.b3 < 256

instance (x : RefId) : Decidable x.Valid := by unfold RefId.Valid; infer_instance

/-- A representable Repr: every field within its wire range (spec section
4.1, round-trip law side condition). -/
def Repr.Valid (r : Repr) : Prop :=
  r.version < 8 ∧ r.stratum.Valid ∧
    -128 ≤ r.poll_interval ∧ r.poll_interval ≤ 127 ∧
    -128 ≤ r.precision ∧ r.precision ≤ 127 ∧
    r.root_delay < 4294967296 ∧ r.root_dispersion < 4294967296 ∧
    r.ref_identifier.Valid ∧
    r.ref_timestamp.Valid ∧ r.orig_timestamp.Valid ∧
    r.recv_timestamp.Valid ∧ r.xmit_timestamp.Valid

instance (r : Repr) : Decidable r.Valid := by unfold Repr.Valid; infer_instance

/-- Modelled from the spec: the socket layer's error channel, distinguishing
the "no data / exhausted" indication from genuine faults (spec section 6;
src/client.rs matches on Error Exhausted versus any other error). -/
inductive NetError where
  | Exhausted
  | Other (code : Nat)
deriving DecidableEq

/-- Modelled from the spec: the narrow collaborator interface of one UDP
socket during a single poll call — openness, the outcome bind would have,
the outcome of the one receive attempt, the can-send check, and the outcome
the one send attempt would have (none means success). -/
structure Socket where
  isOpen : Bool
  bindOutcome : Option NetError
  recvOutcome : Except NetError (List Nat)
  canSend : Bool
  sendOutcome : Option NetError

/-- The SNTPv4 client state (src/client.rs lines 22..27): only next_request,
the absolute instant of the next request, evolves; the socket handle and
server address do not affect the verified logic.  Instants are in
milliseconds. -/
structure Client where
  next_request : Int
deriving DecidableEq

/-- Returns the duration until the next packet request
(src/client.rs lines 90..92): next_request minus now. -/
def Client.next_poll (c : Client) (now : Int) : Int :=
  c.next_request - now

/-- Processes a response from the SNTP server (src/client.rs lines
128..164).  Returns the optional Unix timestamp and the client state after
the call: parse failures yield none and leave the state unchanged; a
non-Server protocol mode yields none and leaves the state unchanged; a
KissOfDeath stratum yields none and resets next_request to now plus
REQUEST_INTERVAL; otherwise the transmit timestamp's seconds are converted
by wrapping 32-bit addition of DIFF_SEC_1970_2036. -/
def Client.receive (c : Client) (data : List Nat) (now : Int) :
    Option Nat × Client :=
  match Repr.parse data with
  | .error _ => (none, c)
  | .ok r =>
    if r.protocol_mode ≠ ProtocolMode.Server then (none, c)
    else if r.stratum = Stratum.KissOfDeath then
      (none, { next_request := now + durFromSecs REQUEST_INTERVAL })
    else
      (some ((r.xmit_timestamp.sec + DIFF_SEC_1970_2036) % 4294967296), c)

/-- The fixed client-mode Repr built by every request
(src/client.rs lines 168..182). -/
def requestRepr : Repr :=
  { leap_indicator := .NoWarning
    version := 4
    protocol_mode := .Client
    stratum := .KissOfDeath
    poll_interval := 0
    precision := 0
    root_delay := 0
    root_dispersion := 0
    ref_identifier := { b0 := 0, b1 := 0, b2 := 0, b3 := 0 }
    ref_timestamp := { sec := 0, frac := 0 }
    orig_timestamp := { sec := 0, frac := 0 }
    recv_timestamp := { sec := 0, frac := 0 }
    xmit_timestamp := { sec := 0, frac := 0 } }

/-- Outcome of a call of request or poll: the returned value, the client
state after the call, and the payload handed to the socket's send (none
when nothing was sent). -/
structure CallResult (α : Type) where
  result : Except NetError α
  client : Client
  sent : Option (List Nat)

/-- Sends a request to the configured server (src/client.rs lines
167..198): builds requestRepr, advances next_request to now plus
REQUEST_INTERVAL before attempting the send, then emits the packet into
the send buffer; a send failure propagates after the timer was already
advanced. -/
def Client.request (c : Client) (s : Socket) (now : Int) : CallResult Unit :=
  let c1 : Client := { next_request := now + durFromSecs REQUEST_INTERVAL }
  match s.sendOutcome with
  | some e => { result := .error e, client := c1, sent := none }
  | none => { result := .ok (), client := c1, sent := some requestRepr.emit }

/-- The timestamp bound at src/client.rs lines 110..114: the receive
outcome's value, with the exhausted error mapped to none (a non-exhausted
error aborts poll before this value is used). -/
def Client.pollTimestamp (c : Client) (s : Socket) (now : Int) : Option Nat :=
  match s.recvOutcome with
  | .ok payload => (c.receive payload now).1
  | .error _ => none

/-- The client state reached after the receive attempt of a poll call
(receive may reset next_request on a kiss-of-death packet). -/
def Client.afterRecv (c : Client) (s : Socket) (now : Int) : Client :=
  match s.recvOutcome with
  | .ok payload => (c.receive payload now).2
  | .error _ => c

/-- The tail of poll (src/client.rs lines 116..124), entered with the
post-receive client state and the produced timestamp: a timestamp returns
immediately; otherwise a request goes out only when the socket can send
and the (possibly updated) next_request has been reached. -/
def Client.pollSend (c : Client) (s : Socket) (now : Int) (ts : Option Nat) :
    CallResult (Option Nat) :=
  match ts with
  | some t => { result := .ok (some t), client := c, sent := none }
  | none =>
    if s.canSend = true ∧ now ≥ c.next_request then
      let rr := c.request s now
      { result := rr.result.map (fun _ => none),
        client := rr.client, sent := rr.sent }
    else { result := .ok none, client := c, sent := none }

/-- Processes incoming packets and sends requests when timeouts expire
(src/client.rs lines 98..125): bind if the socket is closed, attempt one
receive (exhausted means no data, any other receive error returns
immediately), return a produced timestamp without sending, otherwise send
one request if the socket can send and now has reached next_request. -/
def Client.poll (c : Client) (s : Socket) (now : Int) :
    CallResult (Option Nat) :=
  if s.isOpen = false ∧ s.bindOutcome.isSome then
    { result := .error (s.bindOutcome.getD NetError.Exhausted),
      client := c, sent := none }
  else
    match s.recvOutcome with
    | .error NetError.Exhausted => c.pollSend s now none
    | .error e => { result := .error e, client := c, sent := none }
    | .ok payload =>
      let pr := c.receive payload now
      pr.2.pollSend s now pr.1

/-- A concrete 48-byte server-mode kiss-of-death packet: byte 0 packs
leap NoWarning, version 4, mode Server; stratum byte 0; nonzero transmit
timestamp bytes at offsets 40..47. -/
def kodData : List Nat :=
  [36, 0, 0, 0,
   0, 0, 0, 0,  0, 0, 0, 0,  0, 0, 0, 0,
   0, 0, 0, 0,  0, 0, 0, 0,
   0, 0, 0, 0,  0, 0, 0, 0,
   0, 0, 0, 0,  0, 0, 0, 0,
   0, 0, 0, 100,  9, 9, 9, 9]

/-- A concrete 48-byte server-mode stratum-1 packet with transmit seconds
100 and nonzero transmit fraction. -/
def serverData : List Nat :=
  [36, 1, 6, 250,
   0, 0, 0, 0,  0, 0, 0, 0,  71, 80, 83, 0,
   0, 0, 0, 0,  0, 0, 0, 0,
   0, 0, 0, 0,  0, 0, 0, 0,
   0, 0, 0, 0,  0, 0, 0, 0,
   0, 0, 0, 100,  1, 2, 3, 4]

/-- A concrete 48-byte client-mode packet whose stratum byte is 0
(kiss of death), used to show the mode check precedes kiss-of-death
handling. -/
def clientModeData : List Nat :=
  [35, 0, 0, 0,
   0, 0, 0, 0,  0, 0, 0, 0,  0, 0, 0, 0,
   0, 0, 0, 0,  0, 0, 0, 0,
   0, 0, 0, 0,  0, 0, 0, 0,
   0, 0, 0, 0,  0, 0, 0, 0,
   0, 0, 0, 100,  0, 0, 0, 0]

/-- A concrete 48-byte server-mode stratum-1 packet whose four timestamps
are all the zero placeholder. -/
def zeroXmitData : List Nat :=
  [36, 1, 0, 0,
   0, 0, 0, 0,  0, 0, 0, 0,  0, 0, 0, 0,
   0, 0, 0, 0,  0, 0, 0, 0,
   0, 0, 0, 0,  0, 0, 0, 0,
   0, 0, 0, 0,  0, 0, 0, 0,
   0, 0, 0, 0,  0, 0, 0, 0]

/-- A second concrete server-mode packet agreeing with serverData only on
the transmit seconds: every advisory field, every other timestamp and the
transmit fraction differ. -/
def serverData2 : List Nat :=
  [228, 3, 17, 3,
   1, 2, 3, 4,  5, 6, 7, 8,  9, 10, 11, 12,
   13, 14, 15, 16,  17, 18, 19, 20,
   21, 22, 23, 24,  25, 26, 27, 28,
   29, 30, 31, 32,  33, 34, 35, 36,
   0, 0, 0, 100,  41, 42, 43, 44]

/-- A server-mode packet whose transmit seconds are the maximal 32-bit
value, exercising the wrap of the era-1 conversion. -/
def maxSecData : List Nat :=
  [36, 1, 0, 0,
   0, 0, 0, 0,  0, 0, 0, 0,  0, 0, 0, 0,
   0, 0, 0, 0,  0, 0, 0, 0,
   0, 0, 0, 0,  0, 0, 0, 0,
   0, 0, 0, 0,  0, 0, 0, 0,
   255, 255, 255, 255,  0, 0, 0, 0]

/-- The decoded form of kodData. -/
def kodRepr : Repr :=
  { leap_indicator := .NoWarning, version := 4, protocol_mode := .Server
    stratum := .KissOfDeath, poll_interval := 0, precision := 0
    root_delay := 0, root_dispersion := 0
    ref_identifier := { b0 := 0, b1 := 0, b2 := 0, b3 := 0 }
    ref_timestamp := { sec := 0, frac := 0 }
    orig_timestamp := { sec := 0, frac := 0 }
    recv_timestamp := { sec := 0, frac := 0 }
    xmit_timestamp := { sec := 100, frac := 151587081 } }

/-- The decoded form of serverData. -/
def serverRepr : Repr :=
  { leap_indicator := .NoWarning, version := 4, protocol_mode := .Server
    stratum := .PrimaryReference, poll_interval := 6, precision := -6
    root_delay := 0, root_dispersion := 0
    ref_identifier := { b0 := 71, b1 := 80, b2 := 83, b3 := 0 }
    ref_timestamp := { sec := 0, frac := 0 }
    orig_timestamp := { sec := 0, frac := 0 }
    recv_timestamp := { sec := 0, frac := 0 }
    xmit_timestamp := { sec := 100, frac := 16909060 } }

/-- The decoded form of serverData2. -/
def server2Repr : Repr :=
  { leap_indicator := .Unknown, version := 4, protocol_mode := .Server
    stratum := .SecondaryReference 3, poll_interval := 17, precision := 3
    root_delay := 16909060, root_dispersion := 84281096
    ref_identifier := { b0 := 9, b1 := 10, b2 := 11, b3 := 12 }
    ref_timestamp := { sec := 219025168, frac := 286397204 }
    orig_timestamp := { sec := 353769240, frac := 421141276 }
    recv_timestamp := { sec := 488513312, frac := 555885348 }
    xmit_timestamp := { sec := 100, frac := 690629420 } }

/-- The decoded form of zeroXmitData. -/
def zeroRepr : Repr :=
  { leap_indicator := .NoWarning, version := 4, protocol_mode := .Server
    stratum := .PrimaryReference, poll_interval := 0, precision := 0
    root_delay := 0, root_dispersion := 0
    ref_identifier := { b0 := 0, b1 := 0, b2 := 0, b3 := 0 }
    ref_timestamp := { sec := 0, frac := 0 }
    orig_timestamp := { sec := 0, frac := 0 }
    recv_timestamp := { sec := 0, frac := 0 }
    xmit_timestamp := { sec := 0, frac := 0 } }

/-- The decoded form of clientModeData. -/
def clientRepr : Repr :=
  { leap_indicator := .NoWarning, version := 4, protocol_mode := .Client
    stratum := .KissOfDeath, poll_interval := 0, precision := 0
    root_delay := 0, root_dispersion := 0
    ref_identifier := { b0 := 0, b1 := 0, b2 := 0, b3 := 0 }
    ref_timestamp := { sec := 0, frac := 0 }
    orig_timestamp := { sec := 0, frac := 0 }
    recv_timestamp := { sec := 0, frac := 0 }
    xmit_timestamp := { sec := 100, frac := 0 } }

/-- The decoded form of maxSecData. -/
def maxRepr : Repr :=
  { leap_indicator := .NoWarning, version := 4, protocol_mode := .Server
    stratum := .PrimaryReference, poll_interval := 0, precision := 0
    root_delay := 0, root_dispersion := 0
    ref_identifier := { b0 := 0, b1 := 0, b2 := 0, b3 := 0 }
    ref_timestamp := { sec := 0, frac := 0 }
    orig_timestamp := { sec := 0, frac := 0 }
    recv_timestamp := { sec := 0, frac := 0 }
    xmit_timestamp := { sec := 4294967295, frac := 0 } }

/-- A Repr with varied nonzero fields, used to exercise the round trip. -/
def sampleRepr : Repr :=
  { leap_indicator := .DeleteSecond, version := 4, protocol_mode := .Server
    stratum := .SecondaryReference 7, poll_interval := 10, precision := -20
    root_delay := 305419896, root_dispersion := 2271560481
    ref_identifier := { b0 := 78, b1 := 73, b2 := 83, b3 := 84 }
    ref_timestamp := { sec := 3735928559, frac := 1 }
    orig_timestamp := { sec := 2, frac := 4042322160 }
    recv_timestamp := { sec := 4294967295, frac := 4294967295 }
    xmit_timestamp := { sec := 3405691582, frac := 2863311530 } }

/-- An open idle socket: nothing to receive, ready to send, send succeeds. -/
def sockIdle : Socket :=
  { isOpen := true, bindOutcome := none
    recvOutcome := .error NetError.Exhausted
    canSend := true, sendOutcome := none }

/-- An open socket whose receive attempt fails with a non-exhausted
socket-layer error. -/
def sockRecvErr : Socket :=
  { isOpen := true, bindOutcome := none
    recvOutcome := .error (NetError.Other 3)
    canSend := true, sendOutcome := none }

/-- An open socket delivering a malformed (undersized) datagram. -/
def sockShortPkt : Socket :=
  { isOpen := true, bindOutcome := none
    recvOutcome := .ok [1, 2, 3]
    canSend := false, sendOutcome := none }

/-- An open socket whose send attempt fails. -/
def sockSendFail : Socket :=
  { isOpen := true, bindOutcome := none
    recvOutcome := .error NetError.Exhausted
    canSend := true, sendOutcome := some (NetError.Other 7) }

/-- The value the parse of an emitted 32-bit field recomputes: each octet
of the big-endian serialization read back through byteAt. -/
def u32read (x : Nat) : Nat :=
  x / 16777216 % 256 % 256 * 16777216 + x / 65536 % 256 % 256 * 65536 +
    x / 256 % 256 % 256 * 256 + x % 256 % 256

example : Repr.parse [1, 2, 3] = .error .Truncated := by decide
example : Repr.parse kodData = .ok kodRepr := by decide
example : Repr.parse serverData = .ok serverRepr := by decide
example : Repr.parse serverData2 = .ok server2Repr := by decide
example : Repr.parse zeroXmitData = .ok zeroRepr := by decide
example : Repr.parse clientModeData = .ok clientRepr := by decide
example : Repr.parse maxSecData = .ok maxRepr := by decide
example : sampleRepr.Valid := by decide
example : Repr.parse sampleRepr.emit = .ok sampleRepr := by decide
example : (Repr.parse serverData).isOk = true := by decide
example :
    ((Client.mk 0).receive serverData 5).1 = some 2085978596 := by decide
example : ((Client.mk 0).receive kodData 5).1 = none := by decide
example :
    ((Client.mk 0).receive kodData 5).2.next_request = 5 + 3600000 := by decide
example : ((Client.mk 0).receive clientModeData 5) = (none, Client.mk 0) := by
  decide
example : ((Client.mk 0).receive zeroXmitData 5).1 = some 2085978496 := by
  decide
example : requestRepr.Valid := by decide
example : Repr.parse requestRepr.emit = .ok requestRepr := by decide

/-- Behaviour of receive once the payload parsed: the three-way branch of
src/client.rs lines 144..163. -/
lemma receive_parse_ok (c : Client) (d : List Nat) (now : Int) (r : Repr)
    (hp : Repr.parse d = .ok r) :
    c.receive d now =
      if r.protocol_mode ≠ ProtocolMode.Server then (none, c)
      else if r.stratum = Stratum.KissOfDeath then
        (none, { next_request := now + durFromSecs REQUEST_INTERVAL })
      else
        (some ((r.xmit_timestamp.sec + DIFF_SEC_1970_2036) % 4294967296), c) := by
  unfold Client.receive
  rw [hp]

/-- Claim C1: for every well-formed packet whose protocol mode is Server and
whose stratum is KissOfDeath, receive returns none and sets next_request to
now plus the fixed REQUEST_INTERVAL of 3600 seconds, independent of the
previous client state and of the packet's timestamp fields. -/
theorem claim_C1_kiss_of_death (c : Client) (d : List Nat) (now : Int)
    (r : Repr) (hp : Repr.parse d = .ok r)
    (hm : r.protocol_mode = ProtocolMode.Server)
    (hs : r.stratum = Stratum.KissOfDeath) :
    (c.receive d now).1 = none ∧
      (c.receive d now).2.next_request = now + durFromSecs REQUEST_INTERVAL ∧
      durFromSecs REQUEST_INTERVAL = 3600 * 1000 := by
  rw [receive_parse_ok c d now r hp]
  refine ⟨?_, ?_, by decide⟩ <;> simp [hm, hs]

/-- Witness for claim C1: a concrete kiss-of-death server packet with
nonzero transmit timestamp bytes, received by a client whose previous
next_request was 999999. -/
theorem claim_C1_kiss_of_death_witness :
    ((Client.mk 999999).receive kodData 5).1 = none ∧
      ((Client.mk 999999).receive kodData 5).2.next_request =
        5 + durFromSecs REQUEST_INTERVAL ∧
      durFromSecs REQUEST_INTERVAL = 3600 * 1000 :=
  claim_C1_kiss_of_death (Client.mk 999999) kodData 5 kodRepr
    (by decide) (by decide) (by decide)

/-- Claim C2: for every well-formed server-mode packet whose stratum is not
KissOfDeath, receive returns the transmit seconds plus DIFF_SEC_1970_2036
reduced modulo 2^32, discarding the transmit fraction. -/
theorem claim_C2_conversion (c : Client) (d : List Nat) (now : Int)
    (r : Repr) (hp : Repr.parse d = .ok r)
    (hm : r.protocol_mode = ProtocolMode.Server)
    (hs : r.stratum ≠ Stratum.KissOfDeath) :
    (c.receive d now).1 =
      some ((r.xmit_timestamp.sec + DIFF_SEC_1970_2036) % 4294967296) := by
  rw [receive_parse_ok c d now r hp]
  simp [hm, hs]

/-- Witness for claim C2: transmit seconds 0 convert to 2085978496 and the
maximal transmit seconds 4294967295 wrap to 2085978495. -/
theorem claim_C2_conversion_witness :
    ((Client.mk 0).receive zeroXmitData 5).1 = some 2085978496 ∧
      ((Client.mk 0).receive maxSecData 5).1 = some 2085978495 := by
  constructor
  · rw [claim_C2_conversion (Client.mk 0) zeroXmitData 5 zeroRepr
      (by decide) (by decide) (by decide)]
    decide
  · rw [claim_C2_conversion (Client.mk 0) maxSecData 5 maxRepr
      (by decide) (by decide) (by decide)]
    decide

/-- Claim C4: a well-formed packet whose protocol mode is not Server is
discarded: receive returns none and the client state, including
next_request, is unchanged even when the packet's stratum is KissOfDeath
(the mode check precedes kiss-of-death handling). -/
theorem claim_C4_mode_filter (c : Client) (d : List Nat) (now : Int)
    (r : Repr) (hp : Repr.parse d = .ok r)
    (hm : r.protocol_mode ≠ ProtocolMode.Server) :
    c.receive d now = (none, c) := by
  rw [receive_parse_ok c d now r hp]
  simp [hm]

/-- Witness for claim C4: a client-mode packet whose stratum byte is the
kiss-of-death value leaves a client with next_request 42 unchanged. -/
theorem claim_C4_mode_filter_witness :
    (Client.mk 42).receive clientModeData 5 = (none, Client.mk 42) :=
  claim_C4_mode_filter (Client.mk 42) clientModeData 5 clientRepr
    (by decide) (by decide)

/-- Claim C8: next_poll returns next_request minus now, is nonpositive when
the request is overdue, and is pure: it is a plain function of the client
state with no state output. -/
theorem claim_C8_next_poll (c : Client) (now : Int) :
    c.next_poll now = c.next_request - now ∧
      (now ≥ c.next_request → c.next_poll now ≤ 0) := by
  unfold Client.next_poll
  exact ⟨rfl, fun h => by omega⟩

/-- Witness for claim C8: an overdue client with next_request 3 polled at
instant 10 reports the negative duration minus 7. -/
theorem claim_C8_next_poll_witness :
    (Client.mk 3).next_poll 10 = (3 : Int) - 10 ∧
      ((10 : Int) ≥ (Client.mk 3).next_request →
        (Client.mk 3).next_poll 10 ≤ 0) :=
  claim_C8_next_poll (Client.mk 3) 10

/-- Claim C5: every request call builds the fixed client-mode Repr with
leap NoWarning, version 4, mode Client and all timestamp and metadata
fields zeroed, advances next_request to now plus the 3600-second
REQUEST_INTERVAL before the send is attempted (so the timer moves even
when the send fails), propagates a send failure as an error, and on
success hands exactly the serialized request to the socket. -/
theorem claim_C5_request (c : Client) (s : Socket) (now : Int) :
    (c.request s now).client.next_request = now + durFromSecs REQUEST_INTERVAL ∧
      (∀ e, s.sendOutcome = some e →
        (c.request s now).result = .error e ∧ (c.request s now).sent = none) ∧
      (s.sendOutcome = none →
        (c.request s now).result = .ok () ∧
          (c.request s now).sent = some requestRepr.emit) ∧
      requestRepr.leap_indicator = LeapIndicator.NoWarning ∧
      requestRepr.version = 4 ∧
      requestRepr.protocol_mode = ProtocolMode.Client ∧
      requestRepr.poll_interval = 0 ∧ requestRepr.precision = 0 ∧
      requestRepr.root_delay = 0 ∧ requestRepr.root_dispersion = 0 ∧
      requestRepr.ref_identifier = RefId.mk 0 0 0 0 ∧
      requestRepr.ref_timestamp = Timestamp.mk 0 0 ∧
      requestRepr.orig_timestamp = Timestamp.mk 0 0 ∧
      requestRepr.recv_timestamp = Timestamp.mk 0 0 ∧
      requestRepr.xmit_timestamp = Timestamp.mk 0 0 := by
  refine ⟨?_, ?_, ?_, rfl, rfl, rfl, rfl, rfl, rfl, rfl, rfl, rfl, rfl, rfl,
    rfl⟩
  · unfold Client.request
    cases s.sendOutcome <;> rfl
  · intro e he
    unfold Client.request
    rw [he]
    exact ⟨rfl, rfl⟩
  · intro hn
    unfold Client.request
    rw [hn]
    exact ⟨rfl, rfl⟩

/-- Witness for claim C5: against a socket whose send fails with error
code 7, the timer still advances to 5 plus the request interval and the
failure propagates. -/
theorem claim_C5_request_witness :
    ((Client.mk 0).request sockSendFail 5).client.next_request =
        5 + durFromSecs REQUEST_INTERVAL ∧
      ((Client.mk 0).request sockSendFail 5).result =
        .error (NetError.Other 7) := by
  have h := claim_C5_request (Client.mk 0) sockSendFail 5
  exact ⟨h.1, (h.2.1 (NetError.Other 7) rfl).1⟩

/-- With an open socket, poll is the receive match of src/client.rs lines
110..114 followed by the send phase: a datagram goes through receive. -/
lemma poll_open_recv_ok (c : Client) (s : Socket) (now : Int)
    (payload : List Nat) (hopen : s.isOpen = true)
    (hr : s.recvOutcome = .ok payload) :
    c.poll s now =
      (c.receive payload now).2.pollSend s now (c.receive payload now).1 := by
  unfold Client.poll
  rw [hopen, hr]
  rfl

/-- With an open socket, an exhausted receive is treated as no data. -/
lemma poll_open_recv_exhausted (c : Client) (s : Socket) (now : Int)
    (hopen : s.isOpen = true)
    (hr : s.recvOutcome = .error NetError.Exhausted) :
    c.poll s now = c.pollSend s now none := by
  unfold Client.poll
  rw [hopen, hr]
  rfl

/-- With an open socket, a non-exhausted receive error returns immediately
from poll, nothing sent, the client unchanged. -/
lemma poll_open_recv_other (c : Client) (s : Socket) (now : Int) (k : Nat)
    (hopen : s.isOpen = true)
    (hr : s.recvOutcome = .error (NetError.Other k)) :
    c.poll s now =
      { result := .error (NetError.Other k), client := c, sent := none } := by
  unfold Client.poll
  rw [hopen, hr]
  rfl

/-- A produced timestamp short-circuits the send phase. -/
lemma pollSend_some (c : Client) (s : Socket) (now : Int) (t : Nat) :
    c.pollSend s now (some t) =
      { result := .ok (some t), client := c, sent := none } := rfl

/-- With no timestamp and the send guard false, poll sends nothing. -/
lemma pollSend_none_skip (c : Client) (s : Socket) (now : Int)
    (hc : ¬(s.canSend = true ∧ now ≥ c.next_request)) :
    c.pollSend s now none =
      { result := .ok none, client := c, sent := none } := by
  unfold Client.pollSend
  rw [if_neg hc]

/-- With no timestamp, the send guard true and a succeeding send, poll
sends the serialized request and advances the timer. -/
lemma pollSend_none_send (c : Client) (s : Socket) (now : Int)
    (hc : s.canSend = true ∧ now ≥ c.next_request)
    (hsend : s.sendOutcome = none) :
    c.pollSend s now none =
      { result := .ok none,
        client := { next_request := now + durFromSecs REQUEST_INTERVAL },
        sent := some requestRepr.emit } := by
  unfold Client.pollSend Client.request
  rw [if_pos hc, hsend]
  rfl

/-- With no timestamp, the send guard true and a failing send, the send
error propagates from poll with the timer already advanced. -/
lemma pollSend_none_send_fail (c : Client) (s : Socket) (now : Int)
    (e : NetError) (hc : s.canSend = true ∧ now ≥ c.next_request)
    (hsend : s.sendOutcome = some e) :
    c.pollSend s now none =
      { result := .error e,
        client := { next_request := now + durFromSecs REQUEST_INTERVAL },
        sent := none } := by
  unfold Client.pollSend Client.request
  rw [if_pos hc, hsend]
  rfl

/-- An unparseable payload is discarded inside receive. -/
lemma receive_parse_fail (c : Client) (d : List Nat) (now : Int)
    (hp : Repr.parse d = .error .Truncated) :
    c.receive d now = (none, c) := by
  unfold Client.receive
  rw [hp]

/-- Case analysis for the send phase with a succeeding send: result is ok
none either way, and the request goes out exactly under the guard. -/
lemma pollSend_none_cases (c : Client) (s : Socket) (now : Int)
    (hsend : s.sendOutcome = none) :
    (c.pollSend s now none).result = .ok none ∧
      ((c.pollSend s now none).sent = some requestRepr.emit ↔
        s.canSend = true ∧ now ≥ c.next_request) := by
  by_cases hc : s.canSend = true ∧ now ≥ c.next_request
  · rw [pollSend_none_send c s now hc hsend]
    simpa using hc
  · rw [pollSend_none_skip c s now hc]
    simpa using hc

/-- Claim C3: with the socket open and the receive attempt free of hard
socket errors and the send known to succeed, a produced timestamp is
returned immediately with nothing sent; a request goes out exactly when no
timestamp was produced, the socket can send and now has reached the
(possibly kiss-of-death-updated) next_request; and whenever no timestamp
was produced poll returns ok none. -/
theorem claim_C3_poll_flow (c : Client) (s : Socket) (now : Int)
    (hopen : s.isOpen = true)
    (hrec : ∀ e, s.recvOutcome = .error e → e = NetError.Exhausted)
    (hsend : s.sendOutcome = none) :
    (∀ t, c.pollTimestamp s now = some t →
        (c.poll s now).result = .ok (some t) ∧ (c.poll s now).sent = none) ∧
      ((c.poll s now).sent = some requestRepr.emit ↔
        c.pollTimestamp s now = none ∧ s.canSend = true ∧
          now ≥ (c.afterRecv s now).next_request) ∧
      (c.pollTimestamp s now = none → (c.poll s now).result = .ok none) := by
  cases hr : s.recvOutcome with
  | error e =>
    have he := hrec e hr
    subst he
    have hpoll := poll_open_recv_exhausted c s now hopen hr
    have hts : c.pollTimestamp s now = none := by
      unfold Client.pollTimestamp
      rw [hr]
    have hca : c.afterRecv s now = c := by
      unfold Client.afterRecv
      rw [hr]
    obtain ⟨h1, h2⟩ := pollSend_none_cases c s now hsend
    rw [hpoll, hts, hca]
    exact ⟨fun t ht => Option.noConfusion ht, by simpa using h2, fun _ => h1⟩
  | ok payload =>
    have hpoll := poll_open_recv_ok c s now payload hopen hr
    have hts : c.pollTimestamp s now = (c.receive payload now).1 := by
      unfold Client.pollTimestamp
      rw [hr]
    have hca : c.afterRecv s now = (c.receive payload now).2 := by
      unfold Client.afterRecv
      rw [hr]
    rw [hpoll, hts, hca]
    cases hv : (c.receive payload now).1 with
    | some t =>
      rw [pollSend_some]
      refine ⟨fun u hu => by cases hu; exact ⟨rfl, rfl⟩, by simp, by simp⟩
    | none =>
      obtain ⟨h1, h2⟩ :=
        pollSend_none_cases (c.receive payload now).2 s now hsend
      exact ⟨fun t ht => Option.noConfusion ht, by simpa using h2, fun _ => h1⟩

/-- Witness for claim C3: an open idle socket (receive exhausted, can send,
send succeeds) polled at instant 5 by an overdue client. -/
theorem claim_C3_poll_flow_witness :
    (∀ t, (Client.mk 0).pollTimestamp sockIdle 5 = some t →
        ((Client.mk 0).poll sockIdle 5).result = .ok (some t) ∧
          ((Client.mk 0).poll sockIdle 5).sent = none) ∧
      (((Client.mk 0).poll sockIdle 5).sent = some requestRepr.emit ↔
        (Client.mk 0).pollTimestamp sockIdle 5 = none ∧
          sockIdle.canSend = true ∧
          (5 : Int) ≥ ((Client.mk 0).afterRecv sockIdle 5).next_request) ∧
      ((Client.mk 0).pollTimestamp sockIdle 5 = none →
        ((Client.mk 0).poll sockIdle 5).result = .ok none) :=
  claim_C3_poll_flow (Client.mk 0) sockIdle 5 rfl
    (fun e h => (Except.error.inj h).symm) rfl

/-- Claim C6: poll separates the two error classes: an exhausted receive is
no data (poll still returns ok), any other socket-layer receive error
aborts the poll immediately with that error, nothing sent and the state
unchanged, while an unparseable payload is discarded inside receive,
yielding none and an ok result from poll. -/
theorem claim_C6_error_classes (c : Client) (s : Socket) (now : Int)
    (hopen : s.isOpen = true) :
    (s.recvOutcome = .error NetError.Exhausted → s.sendOutcome = none →
        (c.poll s now).result = .ok none) ∧
      (∀ code, s.recvOutcome = .error (NetError.Other code) →
        c.poll s now =
          { result := .error (NetError.Other code), client := c,
            sent := none }) ∧
      (∀ payload, s.recvOutcome = .ok payload →
        Repr.parse payload = .error .Truncated →
        c.receive payload now = (none, c) ∧
          (s.sendOutcome = none → (c.poll s now).result = .ok none)) := by
  refine ⟨?_, ?_, ?_⟩
  · intro hr hsend
    rw [poll_open_recv_exhausted c s now hopen hr]
    exact (pollSend_none_cases c s now hsend).1
  · intro code hr
    exact poll_open_recv_other c s now code hopen hr
  · intro payload hr hparse
    have hrecv := receive_parse_fail c payload now hparse
    refine ⟨hrecv, fun hsend => ?_⟩
    rw [poll_open_recv_ok c s now payload hopen hr, hrecv]
    exact (pollSend_none_cases c s now hsend).1

/-- Witness for claim C6: a socket whose receive fails with the
non-exhausted error code 3 makes poll abort with exactly that error. -/
theorem claim_C6_error_classes_witness :
    (sockRecvErr.recvOutcome = .error NetError.Exhausted →
        sockRecvErr.sendOutcome = none →
        ((Client.mk 0).poll sockRecvErr 5).result = .ok none) ∧
      (∀ code, sockRecvErr.recvOutcome = .error (NetError.Other code) →
        (Client.mk 0).poll sockRecvErr 5 =
          { result := .error (NetError.Other code), client := Client.mk 0,
            sent := none }) ∧
      (∀ payload, sockRecvErr.recvOutcome = .ok payload →
        Repr.parse payload = .error .Truncated →
        (Client.mk 0).receive payload 5 = (none, Client.mk 0) ∧
          (sockRecvErr.sendOutcome = none →
            ((Client.mk 0).poll sockRecvErr 5).result = .ok none)) :=
  claim_C6_error_classes (Client.mk 0) sockRecvErr 5 rfl

/-- The two-bit leap indicator decodes its own encoding. -/
lemma leap_ofWire_toWire (li : LeapIndicator) :
    LeapIndicator.ofWire li.toWire = li := by
  cases li <;> rfl

/-- The three-bit protocol mode decodes its own encoding. -/
lemma mode_ofWire_toWire (m : ProtocolMode) :
    ProtocolMode.ofWire m.toWire = m := by
  cases m <;> rfl

lemma leap_toWire_lt (li : LeapIndicator) : li.toWire < 4 := by
  cases li <;> decide

lemma mode_toWire_lt (m : ProtocolMode) : m.toWire < 8 := by
  cases m <;> decide

/-- Reading back the four big-endian octets of a 32-bit value recovers
it. -/
lemma u32read_eq (x : Nat) (hx : x < 4294967296) : u32read x = x := by
  unfold u32read
  omega

/-- Reading back the two's-complement octet of an in-range signed 8-bit
exponent recovers it. -/
lemma i8_read_back (i : Int) (h1 : -128 ≤ i) (h2 : i ≤ 127) :
    i8OfByte (byteOfI8 i % 256) = i := by
  unfold i8OfByte byteOfI8
  have h0 : (0 : Int) ≤ i % 256 := Int.emod_nonneg i (by norm_num)
  have h3 : i % 256 < 256 := Int.emod_lt_of_pos i (by norm_num)
  split <;> omega

/-- A valid stratum decodes its own wire byte. -/
lemma stratum_read_back (st : Stratum) (h : st.Valid) :
    Stratum.ofWire (st.toWire % 256 % 256) = st := by
  cases st with
  | KissOfDeath => rfl
  | PrimaryReference => rfl
  | Unsynchronized => rfl
  | SecondaryReference n =>
    obtain ⟨ha, hb⟩ := h
    unfold Stratum.toWire Stratum.ofWire
    have hn : n % 256 % 256 = n := by omega
    rw [hn, if_neg (by omega), if_neg (by omega), if_pos (by omega)]
  | Reserved n =>
    obtain ⟨ha, hb⟩ := h
    unfold Stratum.toWire Stratum.ofWire
    have hn : n % 256 % 256 = n := by omega
    rw [hn, if_neg (by omega), if_neg (by omega), if_neg (by omega),
      if_neg (by omega)]

/-- The leap bits of the packed first byte. -/
lemma byte0_leap_arith (a v b : Nat) (ha : a < 4) (hb : b < 8) :
    (a * 64 + v % 8 * 8 + b) % 256 / 64 % 4 = a := by
  omega

/-- The version bits of the packed first byte. -/
lemma byte0_version_arith (a v b : Nat) (ha : a < 4) (hv : v < 8)
    (hb : b < 8) : (a * 64 + v % 8 * 8 + b) % 256 / 8 % 8 = v := by
  omega

/-- The mode bits of the packed first byte. -/
lemma byte0_mode_arith (a v b : Nat) (ha : a < 4) (hb : b < 8) :
    (a * 64 + v % 8 * 8 + b) % 256 % 8 = b := by
  omega

set_option maxHeartbeats 2000000 in
/-- The round-trip law of spec sections 4.1 and 8: parsing the emitted
form of any representable Repr recovers every field. -/
lemma roundtrip_aux (r : Repr) (h : r.Valid) : Repr.parse r.emit = .ok r := by
  cases r with
  | mk li v m st pi pr rd dp rid t1 t2 t3 t4 =>
  cases rid with
  | mk i0 i1 i2 i3 =>
  cases t1 with
  | mk a1 b1 =>
  cases t2 with
  | mk a2 b2 =>
  cases t3 with
  | mk a3 b3 =>
  cases t4 with
  | mk a4 b4 =>
  obtain ⟨hv, hst, hp1, hp2, hq1, hq2, hrd, hdp, hid, ht1, ht2, ht3, ht4⟩ := h
  have Hv : v < 8 := hv
  have Hst : Stratum.Valid st := hst
  have Hp1 : -128 ≤ pi := hp1
  have Hp2 : pi ≤ 127 := hp2
  have Hq1 : -128 ≤ pr := hq1
  have Hq2 : pr ≤ 127 := hq2
  have Hrd : rd < 4294967296 := hrd
  have Hdp : dp < 4294967296 := hdp
  have Hi0 : i0 < 256 := hid.1
  have Hi1 : i1 < 256 := hid.2.1
  have Hi2 : i2 < 256 := hid.2.2.1
  have Hi3 : i3 < 256 := hid.2.2.2
  have Ha1 : a1 < 4294967296 := ht1.1
  have Hb1 : b1 < 4294967296 := ht1.2
  have Ha2 : a2 < 4294967296 := ht2.1
  have Hb2 : b2 < 4294967296 := ht2.2
  have Ha3 : a3 < 4294967296 := ht3.1
  have Hb3 : b3 < 4294967296 := ht3.2
  have Ha4 : a4 < 4294967296 := ht4.1
  have Hb4 : b4 < 4294967296 := ht4.2
  refine congrArg Except.ok ?_
  simp only [Repr.mk.injEq]
  refine ⟨?_, ?_, ?_, ?_, ?_, ?_, ?_, ?_, ?_, ?_, ?_, ?_, ?_⟩
  · show LeapIndicator.ofWire
      ((li.toWire * 64 + v % 8 * 8 + m.toWire) % 256 / 64 % 4) = li
    rw [byte0_leap_arith li.toWire v m.toWire (leap_toWire_lt li)
      (mode_toWire_lt m), leap_ofWire_toWire]
  · show (li.toWire * 64 + v % 8 * 8 + m.toWire) % 256 / 8 % 8 = v
    exact byte0_version_arith li.toWire v m.toWire (leap_toWire_lt li) Hv
      (mode_toWire_lt m)
  · show ProtocolMode.ofWire
      ((li.toWire * 64 + v % 8 * 8 + m.toWire) % 256 % 8) = m
    rw [byte0_mode_arith li.toWire v m.toWire (leap_toWire_lt li)
      (mode_toWire_lt m), mode_ofWire_toWire]
  · show Stratum.ofWire (st.toWire % 256 % 256) = st
    exact stratum_read_back st Hst
  · show i8OfByte (byteOfI8 pi % 256) = pi
    exact i8_read_back pi Hp1 Hp2
  · show i8OfByte (byteOfI8 pr % 256) = pr
    exact i8_read_back pr Hq1 Hq2
  · show u32read rd = rd
    exact u32read_eq rd Hrd
  · show u32read dp = dp
    exact u32read_eq dp Hdp
  · show RefId.mk (i0 % 256 % 256) (i1 % 256 % 256) (i2 % 256 % 256)
      (i3 % 256 % 256) = RefId.mk i0 i1 i2 i3
    simp only [RefId.mk.injEq]
    refine ⟨by omega, by omega, by omega, by omega⟩
  · show Timestamp.mk (u32read a1) (u32read b1) = Timestamp.mk a1 b1
    simp only [Timestamp.mk.injEq]
    exact ⟨u32read_eq a1 Ha1, u32read_eq b1 Hb1⟩
  · show Timestamp.mk (u32read a2) (u32read b2) = Timestamp.mk a2 b2
    simp only [Timestamp.mk.injEq]
    exact ⟨u32read_eq a2 Ha2, u32read_eq b2 Hb2⟩
  · show Timestamp.mk (u32read a3) (u32read b3) = Timestamp.mk a3 b3
    simp only [Timestamp.mk.injEq]
    exact ⟨u32read_eq a3 Ha3, u32read_eq b3 Hb3⟩
  · show Timestamp.mk (u32read a4) (u32read b4) = Timestamp.mk a4 b4
    simp only [Timestamp.mk.injEq]
    exact ⟨u32read_eq a4 Ha4, u32read_eq b4 Hb4⟩

/-- Claim C7: for every representable Repr, all field values within the
enumerants' valid wire ranges, parsing the 48-byte serialization yields
the Repr back with no information loss. -/
theorem claim_C7_roundtrip (r : Repr) (h : r.Valid) :
    Repr.parse r.emit = .ok r :=
  roundtrip_aux r h

/-- Witness for claim C7: the round trip at a Repr with varied nonzero
values in every field. -/
theorem claim_C7_roundtrip_witness :
    sampleRepr.Valid ∧ Repr.parse sampleRepr.emit = .ok sampleRepr :=
  ⟨by decide, claim_C7_roundtrip sampleRepr (by decide)⟩

/-- Counterexample to claim C9 as stated: receive does convert a
zero-valued transmit timestamp.  zeroXmitData is a well-formed server-mode
stratum-1 packet whose transmit timestamp is the zero placeholder, and
receive converts it to 0 + DIFF_SEC_1970_2036 = 2085978496 instead of
refusing it. -/
theorem claim_C9_counterexample :
    Repr.parse zeroXmitData = .ok zeroRepr ∧
      zeroRepr.protocol_mode = ProtocolMode.Server ∧
      zeroRepr.xmit_timestamp = Timestamp.mk 0 0 ∧
      ((Client.mk 0).receive zeroXmitData 7).1 = some 2085978496 := by
  decide

/-- Claim C9 (amended): the era-1 conversion is applied exactly to the
received server packet's transmit-timestamp seconds: the produced value
is a function of that field alone and the reference, originate and receive
timestamps never enter it; a transmit timestamp whose value is the zero
placeholder is not exempted but converted like any other value. -/
theorem claim_C9_xmit_only (c : Client) (now : Int) (r : Repr) (h : r.Valid)
    (hm : r.protocol_mode = ProtocolMode.Server)
    (hs : r.stratum ≠ Stratum.KissOfDeath)
    (t1 t2 t3 : Timestamp) (h1 : t1.Valid) (h2 : t2.Valid) (h3 : t3.Valid) :
    (c.receive r.emit now).1 =
        some ((r.xmit_timestamp.sec + DIFF_SEC_1970_2036) % 4294967296) ∧
      (c.receive (Repr.emit
          { r with
            ref_timestamp := t1
            orig_timestamp := t2
            recv_timestamp := t3 }) now).1 = (c.receive r.emit now).1 := by
  have hv2 : Repr.Valid
      { r with
        ref_timestamp := t1
        orig_timestamp := t2
        recv_timestamp := t3 } := by
    obtain ⟨g1, g2, g3, g4, g5, g6, g7, g8, g9, _, _, _, g13⟩ := h
    exact ⟨g1, g2, g3, g4, g5, g6, g7, g8, g9, h1, h2, h3, g13⟩
  have e1 : (c.receive r.emit now).1 =
      some ((r.xmit_timestamp.sec + DIFF_SEC_1970_2036) % 4294967296) := by
    rw [receive_parse_ok c r.emit now r (roundtrip_aux r h)]
    simp [hm, hs]
  have e2 : (c.receive (Repr.emit
      { r with
        ref_timestamp := t1
        orig_timestamp := t2
        recv_timestamp := t3 }) now).1 =
      some ((r.xmit_timestamp.sec + DIFF_SEC_1970_2036) % 4294967296) := by
    rw [receive_parse_ok c _ now _ (roundtrip_aux _ hv2)]
    simp [hm, hs]
  exact ⟨e1, e2.trans e1.symm⟩

/-- Witness for the amended claim C9: replacing all three non-transmit
timestamps of a concrete server response leaves the produced value
untouched. -/
theorem claim_C9_xmit_only_witness :
    ((Client.mk 0).receive serverRepr.emit 5).1 =
        some ((serverRepr.xmit_timestamp.sec + DIFF_SEC_1970_2036) %
          4294967296) ∧
      ((Client.mk 0).receive (Repr.emit
          { serverRepr with
            ref_timestamp := Timestamp.mk 1 2
            orig_timestamp := Timestamp.mk 3 4
            recv_timestamp := Timestamp.mk 5 6 }) 5).1 =
        ((Client.mk 0).receive serverRepr.emit 5).1 :=
  claim_C9_xmit_only (Client.mk 0) 5 serverRepr (by decide) (by decide)
    (by decide) (Timestamp.mk 1 2) (Timestamp.mk 3 4) (Timestamp.mk 5 6)
    (by decide) (by decide) (by decide)

/-- Claim C10: for two well-formed server-mode non-kiss-of-death packets
agreeing on the transmit seconds, receive produces the same Some value for
both, whatever any other field holds — so the client in particular never
checks the response's originate timestamp against its own request. -/
theorem claim_C10_xmit_sec_only (c1 c2 : Client) (d1 d2 : List Nat)
    (now1 now2 : Int) (r1 r2 : Repr)
    (hp1 : Repr.parse d1 = .ok r1) (hp2 : Repr.parse d2 = .ok r2)
    (hm1 : r1.protocol_mode = ProtocolMode.Server)
    (hm2 : r2.protocol_mode = ProtocolMode.Server)
    (hs1 : r1.stratum ≠ Stratum.KissOfDeath)
    (hs2 : r2.stratum ≠ Stratum.KissOfDeath)
    (hx : r1.xmit_timestamp.sec = r2.xmit_timestamp.sec) :
    (c1.receive d1 now1).1 = (c2.receive d2 now2).1 ∧
      ((c1.receive d1 now1).1).isSome = true := by
  rw [receive_parse_ok c1 d1 now1 r1 hp1, receive_parse_ok c2 d2 now2 r2 hp2]
  simp [hm1, hm2, hs1, hs2, hx]

/-- Witness for claim C10: two concrete server packets differing in every
advisory field, every other timestamp and the transmit fraction, agreeing
only on transmit seconds 100, received by different clients at different
instants, produce the same Some value. -/
theorem claim_C10_xmit_sec_only_witness :
    ((Client.mk 0).receive serverData 5).1 =
        ((Client.mk 11).receive serverData2 77).1 ∧
      (((Client.mk 0).receive serverData 5).1).isSome = true :=
  claim_C10_xmit_sec_only (Client.mk 0) (Client.mk 11) serverData serverData2
    5 77 serverRepr server2Repr (by decide) (by decide) (by decide)
    (by decide) (by decide) (by decide) (by decide)

end Sntp
